import Mathlib

/-!
# Future Skills Lab — verification of `models.py` / `Main.py`

Shallow embedding of the career-orientation program. Python floats are
modelled as exact rationals (`ℚ`), Python ints as `ℤ`, Python `dict`s (which
preserve insertion order) as association lists whose lookup returns the value
of the first matching key. Console interaction is modelled by passing the
list of input lines explicitly; an unbounded retry loop that never receives a
valid line is modelled by returning `none` when the input list is exhausted.
-/

/-- Model of `Competencia` from `models.py`: name, category, description. -/
structure Competencia where
  nome : String
  categoria : String
  descricao : String
deriving DecidableEq, Repr

/-- Model of `Carreira` from `models.py`: name, weighted required skills
(`Dict[str, float]`, modelled as an insertion-ordered association list into
`ℚ`), learning track. -/
structure Carreira where
  nome : String
  competencias_requeridas : List (String × ℚ)
  trilha : List String := []
deriving DecidableEq, Repr

/-- Model of `Perfil` from `models.py`: user name plus `Dict[str, int]` of skill
levels, modelled as an insertion-ordered association list into `ℤ`. -/
structure Perfil where
  nome : String
  competencias : List (String × ℤ) := []
deriving DecidableEq, Repr

/-- Model of `competencias_perfil.get(comp, 0)`: value of the first matching key,
`0` when the key is absent. -/
def lookupNivel : List (String × ℤ) → String → ℤ
  | [], _ => 0
  | (k, v) :: resto, s => if k = s then v else lookupNivel resto s

/-- Model of `dict[key] = value` on an insertion-ordered dict: overwrite the first
occurrence of the key in place, otherwise append at the end. -/
def updateAssoc : List (String × ℤ) → String → ℤ → List (String × ℤ)
  | [], s, v => [(s, v)]
  | (k, x) :: resto, s, v =>
      if k = s then (s, v) :: resto else (k, x) :: updateAssoc resto s v

/-- Model of `Perfil.adicionar_competencia`: add or update a skill level. -/
def Perfil.adicionar_competencia (p : Perfil) (competencia : String) (nivel : ℤ) : Perfil :=
  ⟨p.nome, updateAssoc p.competencias competencia nivel⟩

/-- Model of `Carreira.calcular_pontuacao` from `models.py`, the loop written as left
folds in source order:
`soma_pesos = sum(...)`, guard `soma_pesos == 0`, accumulate
`(nivel / 5) * peso` with `nivel = competencias_perfil.get(comp, 0)`,
return `(total / soma_pesos) * 100`. -/
def Carreira.calcular_pontuacao (c : Carreira) (competencias_perfil : List (String × ℤ)) : ℚ :=
  let soma_pesos : ℚ := c.competencias_requeridas.foldl (fun acc p => acc + p.2) 0
  if soma_pesos = 0 then 0
  else
    let total : ℚ := c.competencias_requeridas.foldl
      (fun acc p => acc + ((lookupNivel competencias_perfil p.1 : ℚ) / 5) * p.2) 0
    (total / soma_pesos) * 100

/-- The scoring formula exactly as the specification words it: when the sum
of the required-skill weights is `0` the score is `0`, otherwise it is the
sum over the `(skill, weight)` pairs of `(level/5) * weight` — the level
defaulting to `0` for a skill absent from the profile — divided by the sum of
the weights, times `100`. Stated separately from the source translation so
the two can be compared. -/
def pontuacao_especificada (c : Carreira) (perfil : List (String × ℤ)) : ℚ :=
  let pesoTotal : ℚ := (c.competencias_requeridas.map Prod.snd).sum
  if pesoTotal = 0 then 0
  else
    ((c.competencias_requeridas.map
        (fun p => ((lookupNivel perfil p.1 : ℚ) / 5) * p.2)).sum / pesoTotal) * 100

/-- The orchestrating class `SistemaOrientacao`: skill catalog (the Python
`dict` keyed by name, kept in insertion order), career catalog, profile
store, learning-track index. -/
structure SistemaOrientacao where
  competencias : List Competencia
  carreiras : List Carreira
  perfis : List Perfil
  trilhas_competencias : List (String × List String)
deriving DecidableEq, Repr

/-- The first entry of the default career catalog, named so concrete
instantiations can refer to it. -/
def carreira_cientista : Carreira :=
  ⟨"Cientista de Dados",
    [("Lógica de Programação", 0.25), ("Pensamento Analítico", 0.30),
     ("Curiosidade", 0.10), ("Colaboração", 0.10),
     ("Resolução de Problemas", 0.25)],
    ["Curso de programação em Python",
     "Especialização em ciência de dados e estatística",
     "Projetos práticos de análise de dados"]⟩

/-- The state built by `SistemaOrientacao.__init__` via
`_carregar_dados_padrao`: the ten default skills, the ten learning tracks
and the six careers, in source order, with an empty profile store. -/
def sistema_inicial : SistemaOrientacao where
  competencias := [
    ⟨"Lógica de Programação", "Técnica",
      "Capacidade de entender algoritmos e estruturas lógicas"⟩,
    ⟨"Criatividade", "Comportamental",
      "Habilidade de propor soluções inovadoras e originais"⟩,
    ⟨"Colaboração", "Comportamental",
      "Trabalhar bem em equipe e compartilhar conhecimento"⟩,
    ⟨"Adaptabilidade", "Comportamental",
      "Capacidade de se ajustar rapidamente a mudanças"⟩,
    ⟨"Pensamento Analítico", "Técnica",
      "Analisar dados e problemas de forma estruturada"⟩,
    ⟨"Inteligência Artificial", "Técnica",
      "Conhecimento em algoritmos e ferramentas de IA"⟩,
    ⟨"Comunicação", "Comportamental",
      "Expressar ideias de forma clara e objetiva"⟩,
    ⟨"Resolução de Problemas", "Comportamental",
      "Diagnosticar e resolver problemas de forma eficaz"⟩,
    ⟨"Curiosidade", "Comportamental",
      "Desejo contínuo de aprender coisas novas"⟩,
    ⟨"Liderança", "Comportamental",
      "Influenciar e motivar pessoas para atingir objetivos"⟩]
  carreiras := [
    carreira_cientista,
    ⟨"Engenheiro de Software",
      [("Lógica de Programação", 0.30), ("Resolução de Problemas", 0.25),
       ("Colaboração", 0.15), ("Adaptabilidade", 0.15),
       ("Comunicação", 0.15)],
      ["Curso avançado de programação orientada a objetos",
       "Prática de versionamento com Git e GitHub",
       "Contribuição para projetos open source"]⟩,
    ⟨"Designer de UX",
      [("Criatividade", 0.30), ("Comunicação", 0.20), ("Curiosidade", 0.10),
       ("Colaboração", 0.20), ("Adaptabilidade", 0.20)],
      ["Cursos de design de interface e experiência do usuário",
       "Estudos de usabilidade e comportamento do usuário",
       "Construção de portfólio com projetos de design"]⟩,
    ⟨"Especialista em Cibersegurança",
      [("Lógica de Programação", 0.20), ("Pensamento Analítico", 0.30),
       ("Resolução de Problemas", 0.30), ("Adaptabilidade", 0.20)],
      ["Formação em segurança da informação",
       "Certificações como CEH ou CompTIA Security+",
       "Prática em ambientes de captura a bandeira (CTF)"]⟩,
    ⟨"Engenheiro de Machine Learning",
      [("Lógica de Programação", 0.20), ("Inteligência Artificial", 0.40),
       ("Pensamento Analítico", 0.25), ("Curiosidade", 0.15)],
      ["Curso intensivo de Machine Learning",
       "Projetos de IA aplicados a problemas reais",
       "Estudo de algoritmos avançados de aprendizado"]⟩,
    ⟨"Empreendedor Tecnológico",
      [("Criatividade", 0.30), ("Liderança", 0.30), ("Adaptabilidade", 0.20),
       ("Comunicação", 0.20)],
      ["Cursos de empreendedorismo e inovação",
       "Participação em hackathons e incubadoras",
       "Leitura sobre modelos de negócio e startups"]⟩]
  perfis := []
  trilhas_competencias := [
    ("Lógica de Programação",
      ["Curso introdutório de lógica no Codecademy",
       "Resolver desafios em plataformas como HackerRank ou LeetCode"]),
    ("Criatividade",
      ["Praticar brainstormings e design thinking",
       "Participar de workshops de inovação"]),
    ("Colaboração",
      ["Trabalhar em projetos em equipe",
       "Estudar metodologias ágeis"]),
    ("Adaptabilidade",
      ["Participar de cursos sobre gestão de mudanças",
       "Exercitar flexibilidade em projetos multidisciplinares"]),
    ("Pensamento Analítico",
      ["Aprender estatística básica e análise de dados",
       "Praticar interpretação de dashboards e gráficos"]),
    ("Inteligência Artificial",
      ["Fazer um curso de introdução ao Machine Learning",
       "Explorar bibliotecas de IA como TensorFlow ou PyTorch"]),
    ("Comunicação",
      ["Participar de debates e apresentações",
       "Estudar técnicas de storytelling"]),
    ("Resolução de Problemas",
      ["Praticar lógica e quebra-cabeças",
       "Aplicar metodologias como Design Thinking"]),
    ("Curiosidade",
      ["Ler artigos de diferentes áreas regularmente",
       "Explorar novos hobbies e ferramentas"]),
    ("Liderança",
      ["Participar de cursos de gestão de equipes",
       "Ler biografias de líderes inspiradores"])]

/-- One step of the stable descending insertion sort: `x` is placed before
the first element whose score is `≤` its own, i.e. after every element with
a strictly greater or equal score that was already in the list. Python's
`list.sort(reverse=True, key=item score)` is a stable sort in descending
score order (equal-score elements keep their relative order, and
`reverse=True` does not disturb ties); a stable sort's output is uniquely
determined by sortedness plus stability, which this insertion sort realises
(proved below: permutation, descending order, and tie preservation). -/
def insereDesc (x : ℚ × Carreira) : List (ℚ × Carreira) → List (ℚ × Carreira)
  | [] => [x]
  | y :: ys => if y.1 ≤ x.1 then x :: y :: ys else y :: insereDesc x ys

/-- Model of `resultados.sort(reverse=True, key=lambda item: item[0])`: stable sort
in descending score order. -/
def ordenaDesc : List (ℚ × Carreira) → List (ℚ × Carreira)
  | [] => []
  | x :: xs => insereDesc x (ordenaDesc xs)

/-- Round a rational to the nearest integer, ties to even — the rounding
used by Python's fixed-point formatting. -/
def roundHalfEven (q : ℚ) : ℤ :=
  let f := ⌊q⌋
  let r := q - f
  if r < 1/2 then f
  else if 1/2 < r then f + 1
  else if f % 2 = 0 then f else f + 1

/-- Python's `f"{q:.1f}"` on the score, with the float modelled as the exact
rational it stands for: round `q*10` half-to-even and print with exactly one
digit after the decimal point. -/
def format1f (q : ℚ) : String :=
  let n := roundHalfEven (q * 10)
  let a := n.natAbs
  (if n < 0 then "-" else "") ++ toString (a / 10) ++ "." ++ toString (a % 10)

/-- The `(pontuacao, carreira)` list built by the loop at the top of
`recomendar_carreiras`. -/
def pontuacoes (sis : SistemaOrientacao) (perfil : Perfil) : List (ℚ × Carreira) :=
  sis.carreiras.map (fun carreira => (carreira.calcular_pontuacao perfil.competencias, carreira))

/-- Model of `SistemaOrientacao.recomendar_carreiras`: score every career, sort
descending (stable), take the first `limite` (default 3), format each line
as `"{nome} - Compatibilidade: {pontuacao:.1f}%"`. -/
def recomendar_carreiras (sis : SistemaOrientacao) (perfil : Perfil)
    (limite : ℕ := 3) : List String :=
  let resultados := ordenaDesc (pontuacoes sis perfil)
  (resultados.take limite).map
    (fun pc => pc.2.nome ++ " - Compatibilidade: " ++ format1f pc.1 ++ "%")

/-- Model of `self.trilhas_competencias.get(comp_nome, [])`: association lookup with
default `[]`. -/
def lookupTrilhas : List (String × List String) → String → List String
  | [], _ => []
  | (k, v) :: resto, s => if k = s then v else lookupTrilhas resto s

/-- Association lookup returning `none` when the key is absent — "the skill
has an entry in the learning-track index" in the specification's words. -/
def lookupTrilhasOpt : List (String × List String) → String → Option (List String)
  | [], _ => none
  | (k, v) :: resto, s => if k = s then some v else lookupTrilhasOpt resto s

/-- Model of `SistemaOrientacao.recomendar_trilhas_aprimoramento`: walk the profile's
skill levels in insertion order; for each level `< 3` look the skill up in
the learning-track index (default `[]`) and, when the list is non-empty,
emit `"Para melhorar em '{comp}', considere: "` plus the comma-joined
resources. -/
def recomendar_trilhas_aprimoramento (sis : SistemaOrientacao) (perfil : Perfil) :
    List String :=
  perfil.competencias.filterMap (fun p =>
    if p.2 < 3 then
      let trilhas := lookupTrilhas sis.trilhas_competencias p.1
      if trilhas = [] then none
      else some ("Para melhorar em '" ++ p.1 ++ "', considere: " ++
                 String.intercalate ", " trilhas)
    else none)

/-- The learning-track contract as the specification words it: one
suggestion per skill rated below 3 that has an entry in the learning-track
index, in the insertion order of the profile's mapping. -/
def trilhas_especificadas (sis : SistemaOrientacao) (perfil : Perfil) : List String :=
  (perfil.competencias.filter
      (fun p => decide (p.2 < 3) && (lookupTrilhasOpt sis.trilhas_competencias p.1).isSome)).map
    (fun p => "Para melhorar em '" ++ p.1 ++ "', considere: " ++
              String.intercalate ", " (lookupTrilhas sis.trilhas_competencias p.1))

/-- Python `str.strip()` with no argument: remove leading and trailing
whitespace (modelled over the ASCII whitespace characters `Char.isWhitespace`
recognises; no input examined here carries any other whitespace). Written
structurally over the character list so it evaluates by reduction. -/
def stripPy (s : String) : String :=
  ⟨((s.data.dropWhile Char.isWhitespace).reverse.dropWhile Char.isWhitespace).reverse⟩

/-- Digit run to number, most significant first. -/
def digitosParaNat (ds : List Char) : ℕ :=
  ds.foldl (fun a c => 10 * a + (c.toNat - Char.toNat '0')) 0

/-- A non-empty all-digit run parses; anything else raises `ValueError`. -/
def parseDigits (ds : List Char) : Option ℕ :=
  if ds ≠ [] ∧ ds.all Char.isDigit then some (digitosParaNat ds) else none

/-- Python `int(s)` on an already-stripped string: optional single sign
followed by at least one decimal digit, `ValueError` (here `none`)
otherwise. (PEP 515 underscore grouping between digits is not modelled; no
input the program's behavior is examined on uses it.) -/
def parseIntPy (s : String) : Option ℤ :=
  match s.toList with
  | '-' :: ds => (parseDigits ds).map (fun n => -(n : ℤ))
  | '+' :: ds => (parseDigits ds).map (fun n => (n : ℤ))
  | ds => (parseDigits ds).map (fun n => (n : ℤ))

/-- Python list subscript `l[i]`: nonnegative indices from the front,
negative indices counted from the end, `IndexError` (here `none`) when out
of range on either side. -/
def pythonGet {α : Type} (l : List α) (i : ℤ) : Option α :=
  if 0 ≤ i then l[i.toNat]?
  else if 0 ≤ i + l.length then l[(i + l.length).toNat]?
  else none

/-- The profile-selection step shared by menu choices 3 and 4:
`idx = int(input(...).strip()); perfil = self.perfis[idx - 1]`, where both a
`ValueError` from `int` and an `IndexError` from the subscript are caught. -/
def selecionar_perfil (perfis : List Perfil) (entrada : String) : Option Perfil :=
  (parseIntPy (stripPy entrada)).bind (fun idx => pythonGet perfis (idx - 1))

/-- Menu choice 3 after the non-empty-profile-store guard: on a failed
selection the shell prints `"Perfil inválido."` and falls back to the main
menu (the `error` case); otherwise it prints the career recommendations
(the `ok` case). -/
def subfluxo_recomendacoes (sis : SistemaOrientacao) (entrada : String) :
    Except String (List String) :=
  match selecionar_perfil sis.perfis entrada with
  | none => Except.error "Perfil inválido."
  | some perfil => Except.ok (recomendar_carreiras sis perfil)

/-- Menu choice 4 after the non-empty-profile-store guard, analogous to
`subfluxo_recomendacoes`. -/
def subfluxo_trilhas (sis : SistemaOrientacao) (entrada : String) :
    Except String (List String) :=
  match selecionar_perfil sis.perfis entrada with
  | none => Except.error "Perfil inválido."
  | some perfil => Except.ok (recomendar_trilhas_aprimoramento sis perfil)

/-- One pass of the registration loop body on a single line: parse the
stripped line as an int and keep it only when it lies in `[1, 5]` —
`valor = int(valor_str); if 1 <= valor <= 5`. -/
def nivel_aceito (s : String) : Option ℤ :=
  match parseIntPy s with
  | some valor => if 1 ≤ valor ∧ valor ≤ 5 then some valor else none
  | none => none

/-- The unbounded `while True` retry loop of `cadastrar_perfil`, fed the
remaining console lines: invalid lines are consumed (each echoing the error
message) until a valid level arrives; `none` means the input ran out with
the loop still waiting. -/
def ler_nivel : List String → Option (ℤ × List String)
  | [] => none
  | entrada :: resto =>
      match nivel_aceito (stripPy entrada) with
      | some v => some (v, resto)
      | none => ler_nivel resto

/-- The `for comp_nome in self.competencias.keys()` loop of
`cadastrar_perfil`: read one valid level per skill name, recording it with
`adicionar_competencia` (insertion-ordered dict update). -/
def cadastrar_niveis : List String → List (String × ℤ) → List String →
    Option (List (String × ℤ) × List String)
  | [], comps, entradas => some (comps, entradas)
  | nome :: nomes, comps, entradas =>
      match ler_nivel entradas with
      | none => none
      | some (v, resto) => cadastrar_niveis nomes (updateAssoc comps nome v) resto

/-- Model of `SistemaOrientacao.cadastrar_perfil`: build the profile by prompting
once per catalog skill (each prompt retrying until valid), append it to the
profile store, return it. The result pairs the new profile with the updated
store. -/
def cadastrar_perfil (sis : SistemaOrientacao) (nome : String) (entradas : List String) :
    Option (Perfil × List Perfil) :=
  match cadastrar_niveis (sis.competencias.map Competencia.nome) [] entradas with
  | none => none
  | some (comps, _) =>
      let perfil : Perfil := ⟨nome, comps⟩
      some (perfil, sis.perfis ++ [perfil])

/-- The profile of the specification's "Ana" scenario: the five skills
required by "Cientista de Dados" at level 5, every other catalog skill at
level 1, in catalog order. -/
def perfil_ana : Perfil :=
  ⟨"Ana", [("Lógica de Programação", 5), ("Criatividade", 1), ("Colaboração", 5),
           ("Adaptabilidade", 1), ("Pensamento Analítico", 5),
           ("Inteligência Artificial", 1), ("Comunicação", 1),
           ("Resolução de Problemas", 5), ("Curiosidade", 5), ("Liderança", 1)]⟩

/-- A system state in which exactly one profile has been registered. -/
def sistema_um_perfil : SistemaOrientacao :=
  { sistema_inicial with perfis := [perfil_ana] }

/-- A registered profile that never rated any skill. -/
def perfil_vazio : Perfil := ⟨"Vazio", []⟩

/-- A console session for one registration: the first line is invalid and is
re-prompted, the remaining lines supply one valid level per catalog skill. -/
def entradas_bea : List String :=
  ["abc", "3", "1", "2", "4", "5", "1", "2", "3", "4", "5"]

/-- The profile `cadastrar_perfil` builds from `entradas_bea`. -/
def perfil_bea : Perfil :=
  ⟨"Bea", [("Lógica de Programação", 3), ("Criatividade", 1), ("Colaboração", 2),
           ("Adaptabilidade", 4), ("Pensamento Analítico", 5),
           ("Inteligência Artificial", 1), ("Comunicação", 2),
           ("Resolução de Problemas", 3), ("Curiosidade", 4), ("Liderança", 5)]⟩

lemma foldl_add_eq_sum (f : String × ℚ → ℚ) (l : List (String × ℚ)) (a : ℚ) :
    l.foldl (fun acc p => acc + f p) a = a + (l.map f).sum := by
  induction l generalizing a with
  | nil => simp
  | cons x xs ih => simp [List.foldl_cons, ih, add_assoc]

lemma calcular_pontuacao_eq_especificada (c : Carreira) (perfil : List (String × ℤ)) :
    c.calcular_pontuacao perfil = pontuacao_especificada c perfil := by
  simp only [Carreira.calcular_pontuacao, pontuacao_especificada,
    foldl_add_eq_sum, zero_add]

lemma lookupNivel_nonneg_of_mem (perfil : List (String × ℤ))
    (h : ∀ p ∈ perfil, 1 ≤ p.2 ∧ p.2 ≤ 5) (s : String) :
    0 ≤ lookupNivel perfil s ∧ lookupNivel perfil s ≤ 5 := by
  induction perfil with
  | nil => simp [lookupNivel]
  | cons x xs ih =>
      have hx := h x (by simp)
      have hxs := ih (fun p hp => h p (List.mem_cons_of_mem _ hp))
      by_cases hk : x.1 = s
      · simpa [lookupNivel, hk] using ⟨by omega, hx.2⟩
      · simpa [lookupNivel, hk] using hxs

lemma pontuacao_especificada_def (c : Carreira) (perfil : List (String × ℤ)) :
    pontuacao_especificada c perfil =
      if (c.competencias_requeridas.map Prod.snd).sum = 0 then 0
      else ((c.competencias_requeridas.map
              (fun p => ((lookupNivel perfil p.1 : ℚ) / 5) * p.2)).sum /
            (c.competencias_requeridas.map Prod.snd).sum) * 100 := rfl

lemma soma_pesos_nonneg (c : Carreira)
    (hw : ∀ p ∈ c.competencias_requeridas, (0 : ℚ) ≤ p.2) :
    (0 : ℚ) ≤ (c.competencias_requeridas.map Prod.snd).sum := by
  refine List.sum_nonneg ?_
  intro x hx
  obtain ⟨p, hp, rfl⟩ := List.mem_map.1 hx
  exact hw p hp

lemma pontuacao_especificada_bounds (c : Carreira) (perfil : List (String × ℤ))
    (hw : ∀ p ∈ c.competencias_requeridas, (0 : ℚ) ≤ p.2)
    (hl : ∀ s, 0 ≤ lookupNivel perfil s ∧ lookupNivel perfil s ≤ 5) :
    0 ≤ pontuacao_especificada c perfil ∧ pontuacao_especificada c perfil ≤ 100 := by
  rw [pontuacao_especificada_def]
  by_cases hS : ((c.competencias_requeridas.map Prod.snd).sum : ℚ) = 0
  · simp [hS]
  · have hS0 : (0 : ℚ) ≤ (c.competencias_requeridas.map Prod.snd).sum :=
      soma_pesos_nonneg c hw
    have hSpos : (0 : ℚ) < (c.competencias_requeridas.map Prod.snd).sum :=
      lt_of_le_of_ne hS0 (Ne.symm hS)
    have hT0 : (0 : ℚ) ≤ (c.competencias_requeridas.map
        (fun p => ((lookupNivel perfil p.1 : ℚ) / 5) * p.2)).sum := by
      refine List.sum_nonneg ?_
      intro x hx
      obtain ⟨p, hp, rfl⟩ := List.mem_map.1 hx
      have h0 : (0 : ℚ) ≤ (lookupNivel perfil p.1 : ℚ) := by
        exact_mod_cast (hl p.1).1
      exact mul_nonneg (div_nonneg h0 (by norm_num)) (hw p hp)
    have hTS : (c.competencias_requeridas.map
        (fun p => ((lookupNivel perfil p.1 : ℚ) / 5) * p.2)).sum ≤
        (c.competencias_requeridas.map Prod.snd).sum := by
      refine List.sum_le_sum ?_
      intro p hp
      have h5 : (lookupNivel perfil p.1 : ℚ) ≤ 5 := by exact_mod_cast (hl p.1).2
      have hque : (lookupNivel perfil p.1 : ℚ) / 5 ≤ 1 := by
        rw [div_le_one (by norm_num : (0:ℚ) < 5)]; exact h5
      have h0 : (0 : ℚ) ≤ (lookupNivel perfil p.1 : ℚ) := by
        exact_mod_cast (hl p.1).1
      calc ((lookupNivel perfil p.1 : ℚ) / 5) * p.2 ≤ 1 * p.2 :=
            mul_le_mul_of_nonneg_right hque (hw p hp)
        _ = p.2 := one_mul _
    constructor
    · simp only [hS, if_false]
      exact mul_nonneg (div_nonneg hT0 hS0) (by norm_num)
    · simp only [hS, if_false]
      have hdiv : (c.competencias_requeridas.map
          (fun p => ((lookupNivel perfil p.1 : ℚ) / 5) * p.2)).sum /
          (c.competencias_requeridas.map Prod.snd).sum ≤ 1 :=
        (div_le_one hSpos).2 hTS
      calc _ ≤ (1 : ℚ) * 100 := mul_le_mul_of_nonneg_right hdiv (by norm_num)
        _ = 100 := one_mul _

lemma pontuacao_especificada_cem (c : Carreira) (perfil : List (String × ℤ))
    (hS : (0 : ℚ) < (c.competencias_requeridas.map Prod.snd).sum)
    (h5 : ∀ p ∈ c.competencias_requeridas, lookupNivel perfil p.1 = 5) :
    pontuacao_especificada c perfil = 100 := by
  rw [pontuacao_especificada_def]
  have hmap : c.competencias_requeridas.map
      (fun p => ((lookupNivel perfil p.1 : ℚ) / 5) * p.2) =
      c.competencias_requeridas.map Prod.snd := by
    refine List.map_congr_left ?_
    intro p hp
    rw [h5 p hp]
    norm_num
  simp only [hmap, ne_of_gt hS, if_false]
  rw [div_self (ne_of_gt hS), one_mul]

lemma lookupNivel_updateAssoc (l : List (String × ℤ)) (s : String) (v : ℤ) (t : String) :
    lookupNivel (updateAssoc l s v) t = if s = t then v else lookupNivel l t := by
  induction l with
  | nil => simp [updateAssoc, lookupNivel]
  | cons x xs ih =>
      by_cases hk : x.1 = s
      · subst hk
        by_cases ht : x.1 = t
        · simp [updateAssoc, lookupNivel, ht]
        · simp [updateAssoc, lookupNivel, ht]
      · by_cases ht : x.1 = t
        · have hst : ¬ s = t := fun h => hk (h ▸ ht)
          have hts : ¬ t = s := fun h => hst h.symm
          simp [updateAssoc, lookupNivel, hk, ht, hst, hts]
        · simp [updateAssoc, lookupNivel, hk, ht, ih]

lemma pontuacao_especificada_mono (c : Carreira) (perfil : List (String × ℤ))
    (s : String) (v : ℤ)
    (hw : ∀ p ∈ c.competencias_requeridas, (0 : ℚ) ≤ p.2)
    (hv : lookupNivel perfil s ≤ v) :
    pontuacao_especificada c perfil ≤
      pontuacao_especificada c (updateAssoc perfil s v) := by
  rw [pontuacao_especificada_def, pontuacao_especificada_def]
  by_cases hS : ((c.competencias_requeridas.map Prod.snd).sum : ℚ) = 0
  · simp [hS]
  · have hS0 : (0 : ℚ) ≤ (c.competencias_requeridas.map Prod.snd).sum :=
      soma_pesos_nonneg c hw
    have hSpos : (0 : ℚ) < (c.competencias_requeridas.map Prod.snd).sum :=
      lt_of_le_of_ne hS0 (Ne.symm hS)
    have hTT : (c.competencias_requeridas.map
        (fun p => ((lookupNivel perfil p.1 : ℚ) / 5) * p.2)).sum ≤
        (c.competencias_requeridas.map
        (fun p => ((lookupNivel (updateAssoc perfil s v) p.1 : ℚ) / 5) * p.2)).sum := by
      refine List.sum_le_sum ?_
      intro p hp
      have hle : lookupNivel perfil p.1 ≤ lookupNivel (updateAssoc perfil s v) p.1 := by
        rw [lookupNivel_updateAssoc]
        by_cases hst : s = p.1
        · simp only [hst, if_true]
          exact hst ▸ hv
        · simp [hst]
      have hleq : (lookupNivel perfil p.1 : ℚ) ≤
          (lookupNivel (updateAssoc perfil s v) p.1 : ℚ) := by exact_mod_cast hle
      exact mul_le_mul_of_nonneg_right
        ((div_le_div_iff_of_pos_right (by norm_num : (0:ℚ) < 5)).2 hleq) (hw p hp)
    simp only [hS, if_false]
    exact mul_le_mul_of_nonneg_right
      ((div_le_div_iff_of_pos_right hSpos).2 hTT) (by norm_num)

lemma insereDesc_perm (x : ℚ × Carreira) (l : List (ℚ × Carreira)) :
    (insereDesc x l).Perm (x :: l) := by
  induction l with
  | nil => exact List.Perm.refl _
  | cons y ys ih =>
      by_cases h : y.1 ≤ x.1
      · simp [insereDesc, h]
      · simp only [insereDesc, h, if_false]
        exact (ih.cons y).trans (List.Perm.swap x y ys)

lemma ordenaDesc_perm (l : List (ℚ × Carreira)) : (ordenaDesc l).Perm l := by
  induction l with
  | nil => exact List.Perm.refl _
  | cons x xs ih => exact (insereDesc_perm x (ordenaDesc xs)).trans (ih.cons x)

lemma pairwise_insereDesc (x : ℚ × Carreira) (l : List (ℚ × Carreira))
    (hl : l.Pairwise (fun a b => b.1 ≤ a.1)) :
    (insereDesc x l).Pairwise (fun a b => b.1 ≤ a.1) := by
  induction l with
  | nil => simp [insereDesc]
  | cons y ys ih =>
      rcases List.pairwise_cons.1 hl with ⟨hy, hys⟩
      by_cases h : y.1 ≤ x.1
      · simp only [insereDesc, h, if_true]
        refine List.pairwise_cons.2 ⟨?_, hl⟩
        intro z hz
        rcases List.mem_cons.1 hz with rfl | hz'
        · exact h
        · exact le_trans (hy z hz') h
      · simp only [insereDesc, h, if_false]
        refine List.pairwise_cons.2 ⟨?_, ih hys⟩
        intro z hz
        have hz' := (insereDesc_perm x ys).mem_iff.1 hz
        rcases List.mem_cons.1 hz' with rfl | hz''
        · exact le_of_lt (lt_of_not_le h)
        · exact hy z hz''

lemma ordenaDesc_pairwise (l : List (ℚ × Carreira)) :
    (ordenaDesc l).Pairwise (fun a b => b.1 ≤ a.1) := by
  induction l with
  | nil => simp [ordenaDesc]
  | cons x xs ih => exact pairwise_insereDesc x (ordenaDesc xs) ih

lemma filter_insereDesc (x : ℚ × Carreira) (l : List (ℚ × Carreira)) (q : ℚ) :
    (insereDesc x l).filter (fun z => decide (z.1 = q)) =
      if x.1 = q then x :: l.filter (fun z => decide (z.1 = q))
      else l.filter (fun z => decide (z.1 = q)) := by
  induction l with
  | nil => by_cases hx : x.1 = q <;> simp [insereDesc, hx]
  | cons y ys ih =>
      by_cases h : y.1 ≤ x.1
      · simp only [insereDesc, h, if_true]
        by_cases hx : x.1 = q <;> simp [List.filter_cons, hx]
      · simp only [insereDesc, h, if_false]
        by_cases hx : x.1 = q
        · have hy : ¬ y.1 = q := fun hyq => h (le_of_eq (hyq.trans hx.symm))
          simp [List.filter_cons, hy, ih, hx]
        · simp [List.filter_cons, ih, hx]

lemma ordenaDesc_stable (l : List (ℚ × Carreira)) (q : ℚ) :
    (ordenaDesc l).filter (fun z => decide (z.1 = q)) =
      l.filter (fun z => decide (z.1 = q)) := by
  induction l with
  | nil => rfl
  | cons x xs ih =>
      show (insereDesc x (ordenaDesc xs)).filter _ = _
      rw [filter_insereDesc]
      by_cases hx : x.1 = q <;> simp [List.filter_cons, hx, ih]

lemma take_eq_take_min {α : Type} (l : List α) (k : ℕ) :
    l.take k = l.take (min k l.length) := by
  rcases le_total k l.length with h | h
  · rw [min_eq_left h]
  · rw [min_eq_right h, List.take_of_length_le h, List.take_length]

lemma lookupTrilhas_eq_getD (l : List (String × List String)) (s : String) :
    lookupTrilhas l s = (lookupTrilhasOpt l s).getD [] := by
  induction l with
  | nil => rfl
  | cons x xs ih =>
      by_cases h : x.1 = s <;> simp [lookupTrilhas, lookupTrilhasOpt, h, ih]

lemma lookupTrilhasOpt_mem (l : List (String × List String)) (s : String)
    (v : List String) (h : lookupTrilhasOpt l s = some v) : (s, v) ∈ l := by
  induction l with
  | nil => simp [lookupTrilhasOpt] at h
  | cons x xs ih =>
      obtain ⟨k, w⟩ := x
      by_cases hk : k = s
      · subst hk
        simp only [lookupTrilhasOpt, if_true, Option.some.injEq] at h
        subst h
        exact List.mem_cons_self _ _
      · simp only [lookupTrilhasOpt, if_neg hk] at h
        exact List.mem_cons_of_mem _ (ih h)

lemma lookupTrilhasOpt_inicial_nonempty (s : String) (v : List String)
    (h : lookupTrilhasOpt sistema_inicial.trilhas_competencias s = some v) :
    v ≠ [] := by
  have hmem := lookupTrilhasOpt_mem _ _ _ h
  have hall : ∀ p ∈ sistema_inicial.trilhas_competencias, p.2 ≠ [] := by decide
  exact hall (s, v) hmem

lemma trilhas_filterMap_eq (l : List (String × ℤ)) :
    l.filterMap (fun p =>
      if p.2 < 3 then
        let trilhas := lookupTrilhas sistema_inicial.trilhas_competencias p.1
        if trilhas = [] then none
        else some ("Para melhorar em '" ++ p.1 ++ "', considere: " ++
                   String.intercalate ", " trilhas)
      else none) =
    (l.filter (fun p => decide (p.2 < 3) &&
        (lookupTrilhasOpt sistema_inicial.trilhas_competencias p.1).isSome)).map
      (fun p => "Para melhorar em '" ++ p.1 ++ "', considere: " ++
                String.intercalate ", "
                  (lookupTrilhas sistema_inicial.trilhas_competencias p.1)) := by
  induction l with
  | nil => rfl
  | cons p ps ih =>
      rw [List.filterMap_cons, List.filter_cons]
      by_cases h3 : p.2 < 3
      · cases hopt : lookupTrilhasOpt sistema_inicial.trilhas_competencias p.1 with
        | none =>
            have hget : lookupTrilhas sistema_inicial.trilhas_competencias p.1 = [] := by
              rw [lookupTrilhas_eq_getD, hopt]; rfl
            simp [h3, hget, hopt, ih]
        | some v =>
            have hne : v ≠ [] := lookupTrilhasOpt_inicial_nonempty p.1 v hopt
            have hget : lookupTrilhas sistema_inicial.trilhas_competencias p.1 = v := by
              rw [lookupTrilhas_eq_getD, hopt]; rfl
            simp [h3, hget, hne, hopt, ih]
      · simp [h3, ih]

lemma nivel_aceito_range (s : String) (v : ℤ) (h : nivel_aceito s = some v) :
    1 ≤ v ∧ v ≤ 5 := by
  cases hp : parseIntPy s with
  | none =>
      simp only [nivel_aceito, hp] at h
      exact Option.noConfusion h
  | some valor =>
      simp only [nivel_aceito, hp] at h
      by_cases hr : 1 ≤ valor ∧ valor ≤ 5
      · rw [if_pos hr] at h
        cases h
        exact hr
      · rw [if_neg hr] at h
        exact absurd h (by simp)

lemma ler_nivel_range (entradas : List String) (v : ℤ) (resto : List String)
    (h : ler_nivel entradas = some (v, resto)) : 1 ≤ v ∧ v ≤ 5 := by
  induction entradas generalizing v resto with
  | nil => simp [ler_nivel] at h
  | cons e es ih =>
      cases hn : nivel_aceito (stripPy e) with
      | some w =>
          simp only [ler_nivel, hn, Option.some.injEq, Prod.mk.injEq] at h
          exact h.1 ▸ nivel_aceito_range _ _ hn
      | none =>
          simp only [ler_nivel, hn] at h
          exact ih _ _ h

lemma ler_nivel_skip (invalidas resto : List String)
    (h : ∀ s ∈ invalidas, nivel_aceito (stripPy s) = none) :
    ler_nivel (invalidas ++ resto) = ler_nivel resto := by
  induction invalidas with
  | nil => rfl
  | cons e es ih =>
      have he := h e (by simp)
      rw [List.cons_append]
      show (match nivel_aceito (stripPy e) with
            | some v => some (v, es ++ resto)
            | none => ler_nivel (es ++ resto)) = ler_nivel resto
      rw [he]
      exact ih (fun s hs => h s (List.mem_cons_of_mem _ hs))

lemma updateAssoc_fresh (l : List (String × ℤ)) (s : String) (v : ℤ)
    (h : s ∉ l.map Prod.fst) : updateAssoc l s v = l ++ [(s, v)] := by
  induction l with
  | nil => rfl
  | cons x xs ih =>
      simp only [List.map_cons, List.mem_cons, not_or] at h
      have hx : ¬ x.1 = s := fun he => h.1 he.symm
      simp [updateAssoc, hx, ih h.2]

lemma cadastrar_niveis_spec :
    ∀ (nomes : List String) (comps : List (String × ℤ)) (entradas : List String)
      (compsFinal : List (String × ℤ)) (resto : List String),
      cadastrar_niveis nomes comps entradas = some (compsFinal, resto) →
      nomes.Nodup → (∀ n ∈ nomes, n ∉ comps.map Prod.fst) →
      compsFinal.map Prod.fst = comps.map Prod.fst ++ nomes ∧
      (∀ p ∈ compsFinal, p ∈ comps ∨ (1 ≤ p.2 ∧ p.2 ≤ 5)) := by
  intro nomes
  induction nomes with
  | nil =>
      intro comps entradas compsFinal resto h _ _
      simp only [cadastrar_niveis, Option.some.injEq, Prod.mk.injEq] at h
      obtain ⟨h1, _⟩ := h
      subst h1
      exact ⟨by simp, fun p hp => Or.inl hp⟩
  | cons nome nomes ih =>
      intro comps entradas compsFinal resto h hnodup hfresh
      unfold cadastrar_niveis at h
      cases hl : ler_nivel entradas with
      | none => rw [hl] at h; exact absurd h (by simp)
      | some vr =>
          obtain ⟨v, resto1⟩ := vr
          rw [hl] at h
          have hfreshHead : nome ∉ comps.map Prod.fst := hfresh nome (by simp)
          have hupd : updateAssoc comps nome v = comps ++ [(nome, v)] :=
            updateAssoc_fresh comps nome v hfreshHead
          have hnd := List.nodup_cons.1 hnodup
          have hfreshResto : ∀ n ∈ nomes, n ∉ (updateAssoc comps nome v).map Prod.fst := by
            intro n hn
            rw [hupd, List.map_append, List.mem_append]
            rintro (hmem | hmem)
            · exact hfresh n (List.mem_cons_of_mem _ hn) hmem
            · simp only [List.map_cons, List.map_nil, List.mem_singleton] at hmem
              exact hnd.1 (hmem ▸ hn)
          obtain ⟨hkeys, hvals⟩ :=
            ih (updateAssoc comps nome v) resto1 compsFinal resto h hnd.2 hfreshResto
          constructor
          · rw [hkeys, hupd, List.map_append]
            simp
          · intro p hp
            rcases hvals p hp with hin | hr
            · rw [hupd] at hin
              rcases List.mem_append.1 hin with hin1 | hin2
              · exact Or.inl hin1
              · have hpv : p = (nome, v) := by simpa using hin2
                have hrange := ler_nivel_range entradas v resto1 hl
                rw [hpv]
                exact Or.inr hrange
            · exact Or.inr hr

lemma pythonGet_eq_none_iff {α : Type} (l : List α) (i : ℤ) :
    pythonGet l i = none ↔ i < -(l.length : ℤ) ∨ (l.length : ℤ) ≤ i := by
  unfold pythonGet
  by_cases h1 : 0 ≤ i
  · rw [if_pos h1, List.getElem?_eq_none_iff]
    constructor
    · intro h
      have h' : (l.length : ℤ) ≤ (i.toNat : ℤ) := by exact_mod_cast h
      rw [Int.toNat_of_nonneg h1] at h'
      exact Or.inr h'
    · rintro (hlt | hle)
      · omega
      · have : l.length ≤ i.toNat := by omega
        exact this
  · rw [if_neg h1]
    by_cases h2 : 0 ≤ i + l.length
    · rw [if_pos h2, List.getElem?_eq_none_iff]
      constructor
      · intro h
        have h' : (l.length : ℤ) ≤ ((i + l.length).toNat : ℤ) := by exact_mod_cast h
        rw [Int.toNat_of_nonneg h2] at h'
        omega
      · rintro (hlt | hle) <;> [skip; omega]
        exfalso; omega
    · rw [if_neg h2]
      constructor
      · intro _
        left
        omega
      · intro _
        rfl

/-- C1: for every career and every profile, `calcular_pontuacao` returns `0`
when the sum of the career's required-skill weights is `0`, and otherwise
the sum over the `(skill, weight)` pairs of `(level/5) * weight` — the level
defaulting to `0` for skills absent from the profile — divided by the sum of
weights, times `100` (`pontuacao_especificada` states that formula in the
specification's words). -/
theorem pontuacao_conforme_formula (c : Carreira) (perfil : List (String × ℤ)) :
    c.calcular_pontuacao perfil = pontuacao_especificada c perfil :=
  calcular_pontuacao_eq_especificada c perfil

/-- C2: `recomendar_carreiras` scores every career of the catalog, orders
them by descending score through a stable sort (a permutation, pairwise
descending, preserving the catalog's relative order of equal scores), and
returns the first `min limite (number of careers)` entries formatted; the
limit defaults to 3. -/
theorem recomendacoes_ordenadas_estaveis (sis : SistemaOrientacao) (perfil : Perfil)
    (limite : ℕ) :
    (ordenaDesc (pontuacoes sis perfil)).Perm (pontuacoes sis perfil) ∧
    (ordenaDesc (pontuacoes sis perfil)).Pairwise (fun a b => b.1 ≤ a.1) ∧
    (∀ q : ℚ, (ordenaDesc (pontuacoes sis perfil)).filter (fun z => decide (z.1 = q)) =
        (pontuacoes sis perfil).filter (fun z => decide (z.1 = q))) ∧
    recomendar_carreiras sis perfil limite =
      ((ordenaDesc (pontuacoes sis perfil)).take (min limite sis.carreiras.length)).map
        (fun pc => pc.2.nome ++ " - Compatibilidade: " ++ format1f pc.1 ++ "%") ∧
    recomendar_carreiras sis perfil = recomendar_carreiras sis perfil 3 := by
  refine ⟨ordenaDesc_perm _, ordenaDesc_pairwise _, fun q => ordenaDesc_stable _ q, ?_, rfl⟩
  have hlen : (ordenaDesc (pontuacoes sis perfil)).length = sis.carreiras.length := by
    rw [(ordenaDesc_perm _).length_eq]
    simp [pontuacoes]
  show ((ordenaDesc (pontuacoes sis perfil)).take limite).map _ = _
  rw [take_eq_take_min (ordenaDesc (pontuacoes sis perfil)) limite, hlen]

/-- C3: for every profile, `recomendar_trilhas_aprimoramento` emits exactly
one suggestion per skill whose recorded level is below 3 and that has an
entry in the learning-track index, in the insertion order of the profile's
mapping; skills without an index entry are silently skipped and unrated
skills are never considered (`trilhas_especificadas` states the contract in
the specification's words). -/
theorem trilhas_conforme_especificacao (perfil : Perfil) :
    recomendar_trilhas_aprimoramento sistema_inicial perfil =
      trilhas_especificadas sistema_inicial perfil :=
  trilhas_filterMap_eq perfil.competencias

/-- C4 (amended): in menu choices 3 and 4, a profile selection that does not
parse as an integer, or parses to `idx` with `idx - 1` outside Python's
index range for the profile list — i.e. `idx < 1 - n` or `idx > n` for `n`
registered profiles — makes the shell print "Perfil inválido." and return to
the main menu without producing recommendations or learning tracks. (The
original claim's range `[1, n]` is wrong: Python's negative indexing accepts
`idx` in `[1 - n, 0]` as well, counting from the end of the list.) -/
theorem selecao_invalida_aborta (sis : SistemaOrientacao) (entrada : String)
    (h : parseIntPy (stripPy entrada) = none ∨
         ∃ idx : ℤ, parseIntPy (stripPy entrada) = some idx ∧
           (idx < 1 - (sis.perfis.length : ℤ) ∨ (sis.perfis.length : ℤ) < idx)) :
    subfluxo_recomendacoes sis entrada = Except.error "Perfil inválido." ∧
    subfluxo_trilhas sis entrada = Except.error "Perfil inválido." := by
  have hsel : selecionar_perfil sis.perfis entrada = none := by
    unfold selecionar_perfil
    rcases h with h | ⟨idx, hp, hidx⟩
    · rw [h]; rfl
    · rw [hp]
      show pythonGet sis.perfis (idx - 1) = none
      exact (pythonGet_eq_none_iff _ _).2 (by omega)
  exact ⟨by simp [subfluxo_recomendacoes, hsel], by simp [subfluxo_trilhas, hsel]⟩

/-- Witness for C4's theorem: selecting profile "99" when only one profile
is registered aborts both sub-flows with "Perfil inválido.". -/
theorem selecao_invalida_aborta_witness :
    subfluxo_recomendacoes sistema_um_perfil "99" = Except.error "Perfil inválido." ∧
    subfluxo_trilhas sistema_um_perfil "99" = Except.error "Perfil inválido." :=
  selecao_invalida_aborta sistema_um_perfil "99"
    (Or.inr ⟨99, by decide, Or.inr (by decide)⟩)

/-- C4 counterexample: with one registered profile the entered selection
"0" is an integer outside `[1, 1]`, yet the sub-flow does not print
"Perfil inválido." — `perfis[0 - 1]` selects the last profile by Python's
negative indexing and recommendations are produced for it. -/
theorem selecao_zero_nao_aborta :
    parseIntPy (stripPy "0") = some 0 ∧
    ¬ (1 ≤ (0 : ℤ) ∧ (0 : ℤ) ≤ (sistema_um_perfil.perfis.length : ℤ)) ∧
    subfluxo_recomendacoes sistema_um_perfil "0" =
      Except.ok (recomendar_carreiras sistema_um_perfil perfil_ana) :=
  ⟨by decide, by decide, by with_unfolding_all rfl⟩

/-- C5: the registration flow rejects "abc", "0", "6", "-1" and accepts
"1"…"5"; the retry loop skips any number of invalid lines with no retry
limit; and a completed registration — run against the fixed catalog with ANY
profiles already in the store — appends the new profile at the end of the
store, keeps the given name, and records exactly one level — always in
`[1, 5]` — per catalog skill, in catalog order. -/
theorem cadastro_validacao :
    (nivel_aceito "abc" = none ∧ nivel_aceito "0" = none ∧
     nivel_aceito "6" = none ∧ nivel_aceito "-1" = none) ∧
    (nivel_aceito "1" = some 1 ∧ nivel_aceito "2" = some 2 ∧
     nivel_aceito "3" = some 3 ∧ nivel_aceito "4" = some 4 ∧
     nivel_aceito "5" = some 5) ∧
    (∀ invalidas resto, (∀ s ∈ invalidas, nivel_aceito (stripPy s) = none) →
       ler_nivel (invalidas ++ resto) = ler_nivel resto) ∧
    (∀ perfis nome entradas perfil perfis',
       cadastrar_perfil { sistema_inicial with perfis := perfis } nome entradas =
         some (perfil, perfis') →
       perfis' = perfis ++ [perfil] ∧
       perfil.nome = nome ∧
       perfil.competencias.map Prod.fst =
         sistema_inicial.competencias.map Competencia.nome ∧
       (∀ p ∈ perfil.competencias, 1 ≤ p.2 ∧ p.2 ≤ 5)) := by
  refine ⟨⟨by decide, by decide, by decide, by decide⟩,
          ⟨by decide, by decide, by decide, by decide, by decide⟩,
          fun invalidas resto h => ler_nivel_skip invalidas resto h, ?_⟩
  intro perfis nome entradas perfil perfis' h
  unfold cadastrar_perfil at h
  cases hc : cadastrar_niveis
      (({ sistema_inicial with perfis := perfis } : SistemaOrientacao).competencias.map
        Competencia.nome) [] entradas with
  | none => rw [hc] at h; exact absurd h (by simp)
  | some cr =>
      obtain ⟨comps, restoFinal⟩ := cr
      rw [hc] at h
      simp only [Option.some.injEq, Prod.mk.injEq] at h
      obtain ⟨hperfil, hperfis⟩ := h
      obtain ⟨hkeys, hvals⟩ := cadastrar_niveis_spec
        (({ sistema_inicial with perfis := perfis } : SistemaOrientacao).competencias.map
          Competencia.nome) [] entradas comps restoFinal hc
        (by show (sistema_inicial.competencias.map Competencia.nome).Nodup
            decide)
        (by simp)
      subst hperfil
      subst hperfis
      refine ⟨rfl, rfl, by simpa using hkeys, ?_⟩
      intro p hp
      exact (hvals p hp).resolve_left (by simp)

/-- Witness for C5's theorem: registering "Bea" with `entradas_bea` (first
line invalid, then ten valid levels) against a store already holding the
"Ana" profile appends the new profile after the existing one and records
one level per catalog skill. -/
theorem cadastro_validacao_witness :
    [perfil_ana, perfil_bea] = [perfil_ana] ++ [perfil_bea] ∧
    perfil_bea.nome = "Bea" ∧
    perfil_bea.competencias.map Prod.fst =
      sistema_inicial.competencias.map Competencia.nome :=
  have h := cadastro_validacao.2.2.2 [perfil_ana] "Bea" entradas_bea perfil_bea
    [perfil_ana, perfil_bea] (by decide)
  ⟨h.1, h.2.1, h.2.2.1⟩

/-- C6: every career of the built-in catalog scores every profile whose
recorded levels all lie in `[1, 5]` within the interval `[0, 100]`. -/
theorem pontuacao_no_intervalo (c : Carreira) (perfil : List (String × ℤ))
    (hc : c ∈ sistema_inicial.carreiras)
    (hp : ∀ p ∈ perfil, 1 ≤ p.2 ∧ p.2 ≤ 5) :
    0 ≤ c.calcular_pontuacao perfil ∧ c.calcular_pontuacao perfil ≤ 100 := by
  rw [calcular_pontuacao_eq_especificada]
  have hw : ∀ cc ∈ sistema_inicial.carreiras,
      ∀ p ∈ cc.competencias_requeridas, (0:ℚ) ≤ p.2 := by
    with_unfolding_all decide
  exact pontuacao_especificada_bounds c perfil (hw c hc)
    (lookupNivel_nonneg_of_mem perfil hp)

/-- Witness for C6's theorem at the first catalog career and the "Ana"
profile. -/
theorem pontuacao_no_intervalo_witness :
    0 ≤ carreira_cientista.calcular_pontuacao perfil_ana.competencias ∧
    carreira_cientista.calcular_pontuacao perfil_ana.competencias ≤ 100 :=
  pontuacao_no_intervalo carreira_cientista perfil_ana.competencias
    (by with_unfolding_all decide) (by decide)

/-- C7: a career whose total required-skill weight is positive awards the
score `100` to every profile recording level 5 for each required skill. -/
theorem pontuacao_cem_com_niveis_maximos (c : Carreira) (perfil : List (String × ℤ))
    (hS : 0 < (c.competencias_requeridas.map Prod.snd).sum)
    (h5 : ∀ p ∈ c.competencias_requeridas, lookupNivel perfil p.1 = 5) :
    c.calcular_pontuacao perfil = 100 := by
  rw [calcular_pontuacao_eq_especificada]
  exact pontuacao_especificada_cem c perfil hS h5

/-- Witness for C7's theorem: "Ana" rates all skills required by "Cientista
de Dados" at 5 and scores exactly 100. -/
theorem pontuacao_cem_witness :
    carreira_cientista.calcular_pontuacao perfil_ana.competencias = 100 :=
  pontuacao_cem_com_niveis_maximos carreira_cientista perfil_ana.competencias
    (by with_unfolding_all decide) (by decide)

/-- C8: the profile rating the five skills required by "Cientista de Dados"
at 5 and every other catalog skill at 1 gets "Cientista de Dados -
Compatibilidade: 100.0%" as the first recommendation under the default
limit. -/
theorem cenario_ana_topo :
    (recomendar_carreiras sistema_inicial perfil_ana).head? =
      some "Cientista de Dados - Compatibilidade: 100.0%" := by
  with_unfolding_all decide

/-- C9 (amended): every string returned by `recomendar_carreiras` is
exactly the career's name, the literal text " - Compatibilidade: " — the
Portuguese label the code prints, not the claim's " - Compatibility: " —
then THAT career's score put through the one-decimal fixed-point formatter
`format1f`, then "%"; and the formatted score itself is the decimal numeral
of the rounded score's integer part, a ".", and exactly one decimal digit
(with a leading "-" only for a negative rounded value). -/
theorem recomendacoes_bem_formatadas (sis : SistemaOrientacao) (perfil : Perfil)
    (limite : ℕ) (msg : String)
    (h : msg ∈ recomendar_carreiras sis perfil limite) :
    ∃ c ∈ sis.carreiras,
      msg = c.nome ++ " - Compatibilidade: " ++
            format1f (c.calcular_pontuacao perfil.competencias) ++ "%" ∧
      format1f (c.calcular_pontuacao perfil.competencias) =
        (if roundHalfEven (c.calcular_pontuacao perfil.competencias * 10) < 0
            then "-" else "") ++
        toString ((roundHalfEven
          (c.calcular_pontuacao perfil.competencias * 10)).natAbs / 10) ++ "." ++
        toString ((roundHalfEven
          (c.calcular_pontuacao perfil.competencias * 10)).natAbs % 10) ∧
      (roundHalfEven (c.calcular_pontuacao perfil.competencias * 10)).natAbs % 10
        < 10 := by
  unfold recomendar_carreiras at h
  rw [List.mem_map] at h
  obtain ⟨pc, hpc, rfl⟩ := h
  have hmem : pc ∈ ordenaDesc (pontuacoes sis perfil) := List.mem_of_mem_take hpc
  have hmem2 : pc ∈ pontuacoes sis perfil := ((ordenaDesc_perm _).mem_iff).1 hmem
  unfold pontuacoes at hmem2
  rw [List.mem_map] at hmem2
  obtain ⟨c, hc, rfl⟩ := hmem2
  exact ⟨c, hc, rfl, rfl, Nat.mod_lt _ (by norm_num)⟩

/-- Witness for C9's theorem at the never-rated profile, whose first
recommendation reads "Cientista de Dados - Compatibilidade: 0.0%". -/
theorem recomendacoes_bem_formatadas_witness :
    ∃ c ∈ sistema_inicial.carreiras,
      "Cientista de Dados - Compatibilidade: 0.0%" =
        c.nome ++ " - Compatibilidade: " ++
        format1f (c.calcular_pontuacao perfil_vazio.competencias) ++ "%" ∧
      format1f (c.calcular_pontuacao perfil_vazio.competencias) =
        (if roundHalfEven (c.calcular_pontuacao perfil_vazio.competencias * 10) < 0
            then "-" else "") ++
        toString ((roundHalfEven
          (c.calcular_pontuacao perfil_vazio.competencias * 10)).natAbs / 10) ++ "." ++
        toString ((roundHalfEven
          (c.calcular_pontuacao perfil_vazio.competencias * 10)).natAbs % 10) ∧
      (roundHalfEven (c.calcular_pontuacao perfil_vazio.competencias * 10)).natAbs % 10
        < 10 :=
  recomendacoes_bem_formatadas sistema_inicial perfil_vazio 3
    "Cientista de Dados - Compatibilidade: 0.0%" (by with_unfolding_all decide)

/-- C9 counterexample: the returned strings carry the Portuguese label
" - Compatibilidade: "; the literal " - Compatibility: " required by the
claim does not occur in them, so the claimed form fails on the code. -/
theorem rotulo_ingles_ausente :
    "Cientista de Dados - Compatibilidade: 0.0%" ∈
      recomendar_carreiras sistema_inicial perfil_vazio 3 ∧
    ¬ (String.toList " - Compatibility: " <:+:
       String.toList "Cientista de Dados - Compatibilidade: 0.0%") :=
  ⟨by with_unfolding_all decide, by decide⟩

/-- C10: for a career whose required-skill weights are all nonnegative,
raising one skill's recorded level — or rating a previously unrated skill —
through `adicionar_competencia` never lowers `calcular_pontuacao`. -/
theorem pontuacao_monotona (c : Carreira) (p : Perfil) (s : String) (v : ℤ)
    (hw : ∀ par ∈ c.competencias_requeridas, (0:ℚ) ≤ par.2)
    (hv : lookupNivel p.competencias s ≤ v) :
    c.calcular_pontuacao p.competencias ≤
      c.calcular_pontuacao (p.adicionar_competencia s v).competencias := by
  rw [calcular_pontuacao_eq_especificada, calcular_pontuacao_eq_especificada]
  exact pontuacao_especificada_mono c p.competencias s v hw hv

/-- Witness for C10's theorem: raising "Curiosidade" from 2 to 4 does not
lower the "Cientista de Dados" score. -/
theorem pontuacao_monotona_witness :
    carreira_cientista.calcular_pontuacao (Perfil.mk "Caio" [("Curiosidade", 2)]).competencias ≤
      carreira_cientista.calcular_pontuacao
        ((Perfil.mk "Caio" [("Curiosidade", 2)]).adicionar_competencia
          "Curiosidade" 4).competencias :=
  pontuacao_monotona carreira_cientista ⟨"Caio", [("Curiosidade", 2)]⟩ "Curiosidade" 4
    (by with_unfolding_all decide) (by decide)
